import Mathlib

/-!
Verification development for `neti.py` (Instagram/neti), a host agent that
leases an overlay IPv4 address from a ZooKeeper-backed registry and
synthesizes iptables rule programs from the watched membership snapshot.

Python strings are modelled as `List Char`; Python 2 specific behaviours
(ordering of mismatched types, `str.split`, `re.match`, `int()`) are
modelled explicitly where the code relies on them.
-/

deriving instance DecidableEq for Except

namespace Neti

/-- Shorthand: the character list of a string literal. -/
def str (s : String) : List Char := s.data

/-! ## Python string primitives -/

/-- Python `s.split(sep)` for a one-character separator: splits on every
occurrence, keeping empty segments (`"a--b".split("-") = ["a","","b"]`). -/
def pySplit (sep : Char) : List Char → List (List Char)
  | [] => [[]]
  | c :: cs =>
    if c = sep then [] :: pySplit sep cs
    else
      match pySplit sep cs with
      | [] => [[c]]
      | w :: ws => (c :: w) :: ws

/-- Python `s.split()` (no argument): split on runs of whitespace,
discarding empty segments. -/
def pySplitWs (s : List Char) : List (List Char) :=
  (s.foldr
    (fun c acc =>
      if c.isWhitespace then [] :: acc
      else
        match acc with
        | [] => [[c]]
        | w :: ws => (c :: w) :: ws)
    [[]]).filter (· ≠ [])

/-- Numeric value of a digit string (digits already validated by callers). -/
def natOfDigits (s : List Char) : Nat :=
  s.foldl (fun a c => 10 * a + (c.toNat - 48)) 0

/-- Python `int(s)` on a string: optional surrounding whitespace, optional
sign, at least one digit; `int("01") = 1`; anything else raises ValueError
(modelled as `none`). -/
def pyIntOfString (s : List Char) : Option Int :=
  let t := (s.dropWhile Char.isWhitespace).reverse.dropWhile Char.isWhitespace |>.reverse
  match t with
  | '-' :: ds => if ds ≠ [] ∧ ds.all Char.isDigit then some (-(natOfDigits ds : Int)) else none
  | '+' :: ds => if ds ≠ [] ∧ ds.all Char.isDigit then some (natOfDigits ds : Int) else none
  | ds => if ds ≠ [] ∧ ds.all Char.isDigit then some (natOfDigits ds : Int) else none

/-! ## The `ipaddress` backport: `IPv4Network(unicode(s))`

`neti.py` validates every address with `IPv4Network`, catching only
`AddressValueError`.  `NetmaskValueError` and the strict host-bits check
raise plain `ValueError`s which the caller does not catch; the outcome
type distinguishes the two. -/

/-- Outcome of `IPv4Network(s)`:  `ok`, `addrErr` (`AddressValueError`,
caught by neti), or `valErr` (other `ValueError`s, not caught by neti). -/
inductive IPOutcome where
  | ok
  | addrErr
  | valErr
deriving DecidableEq, Repr

/-- `_parse_octet`: nonempty, decimal digits only, at most 3 characters,
no ambiguous octal (value > 7 with a leading zero), value at most 255. -/
def validOctet (o : List Char) : Bool :=
  o ≠ [] && o.all Char.isDigit && o.length ≤ 3 &&
    !(natOfDigits o > 7 && o.headD ' ' = '0') && natOfDigits o ≤ 255

/-- `_ip_int_from_string` success: exactly four valid dot-separated octets. -/
def isIPv4String (s : List Char) : Bool :=
  let parts := pySplit '.' s
  parts.length = 4 && parts.all validOctet

/-- Integer value of a (valid) dotted-quad address string. -/
def ipv4ToNat (s : List Char) : Nat :=
  (pySplit '.' s).foldl (fun a o => 256 * a + natOfDigits o) 0

/-- `_prefix_from_ip_int`: a mask integer maps to the prefix length whose
netmask it is (contiguous ones from the top), if any. -/
def prefixOfMaskNat (m : Nat) : Option Nat :=
  (List.range 33).find? (fun p => m = 2 ^ 32 - 2 ^ (32 - p))

/-- `_make_netmask` on the string after `/`: a pure digit string in 0..32
is a prefix length; otherwise the string must parse as a dotted quad that
is a valid netmask or hostmask; otherwise `NetmaskValueError` (`none`). -/
def prefixLenOfMaskString (mask : List Char) : Option Nat :=
  if mask ≠ [] ∧ mask.all Char.isDigit then
    if natOfDigits mask ≤ 32 then some (natOfDigits mask) else none
  else if isIPv4String mask then
    match prefixOfMaskNat (ipv4ToNat mask) with
    | some p => some p
    | none => prefixOfMaskNat (2 ^ 32 - 1 - ipv4ToNat mask)
  else none

/-- `IPv4Network(s)` with `strict=True` (the default used by neti):
at most one `/`; the address part must be a well-formed dotted quad
(`AddressValueError` otherwise); a bad netmask is a `NetmaskValueError`
(plain `ValueError`); host bits set under the mask is a plain
`ValueError`. -/
def ipv4NetworkOutcome (s : List Char) : IPOutcome :=
  match pySplit '/' s with
  | [addr] => if isIPv4String addr then .ok else .addrErr
  | [addr, mask] =>
    if isIPv4String addr then
      match prefixLenOfMaskString mask with
      | none => .valErr
      | some p => if ipv4ToNat addr % 2 ^ (32 - p) = 0 then .ok else .valErr
    else .addrErr
  | _ => .addrErr

/-! ## `InstanceIPBundle._parse_entry` -/

/-- How `_parse_entry` can terminate abnormally: `IPPatternMismatchError`
(raised and logged by neti), an uncaught `IndexError` from
`ip_string.rsplit("|", 1)[1]` when the payload has no `|`, or an uncaught
plain `ValueError` escaping `IPv4Network`. -/
inductive PErr where
  | patternMismatch
  | indexError
  | valueError
deriving DecidableEq, Repr

/-- The parsed bundle: `public_ip`, `private_ip`, `overlay_ip` attributes,
the raw realm field `is_vpc`, and the original entry string kept on the
object. -/
structure Bundle where
  publicIp : List Char
  privateIp : List Char
  overlayIp : List Char
  isVpcField : List Char
  entry : List Char
deriving DecidableEq, Repr

/-- `re.compile('[01]').match(s)`: an (unanchored-at-end) match at the
start of the string, i.e. the first character is `0` or `1`. -/
def binaryCheckMatch (s : List Char) : Bool :=
  match s with
  | [] => false
  | c :: _ => c = '0' || c = '1'

/-- `ip_labels = ["public_ip", "private_ip", "overlay_ip"]`. -/
def IP_LABELS : List (List Char) := [str "public_ip", str "private_ip", str "overlay_ip"]

/-- The validation loop over `dict(zip(ip_labels, fields))`: each mapped
field must be accepted by `IPv4Network`; `AddressValueError` becomes
`IPPatternMismatchError`, other `ValueError`s propagate.  (CPython 2 dict
iteration order is implementation-defined; it is modelled here in
insertion order, which is irrelevant whenever at most one field fails.) -/
def validateFields : List (List Char × List Char) → Except PErr Unit
  | [] => .ok ()
  | (_, ip) :: rest =>
    match ipv4NetworkOutcome ip with
    | .ok => validateFields rest
    | .addrErr => .error .patternMismatch
    | .valErr => .error .valueError

/-- Steps 2..5 of `_parse_entry` on the payload right of the `-`:
`rsplit("|", 1)[1]` (IndexError when there is no `|`), the `[01]` check on
that last field, `dict(zip(ip_labels, ip_string.split("|")))` which keeps
only the first three fields and requires at least three, then per-field
`IPv4Network` validation. -/
def parsePayload (entry ipString : List Char) : Except PErr Bundle :=
  let parts := pySplit '|' ipString
  if parts.length < 2 then .error .indexError
  else
    let isVpc := parts.getLastD []
    if !binaryCheckMatch isVpc then .error .patternMismatch
    else
      let fields := pySplit '|' ipString
      let ips := IP_LABELS.zip fields
      if ips.length ≠ IP_LABELS.length then .error .patternMismatch
      else
        match validateFields ips with
        | .error e => .error e
        | .ok _ =>
          .ok ⟨fields.getD 0 [], fields.getD 1 [], fields.getD 2 [], isVpc, entry⟩

/-- `_parse_entry`: `_, ip_string = entry.split("-")` requires the entry to
split on `-` into exactly two parts (any other count raises `ValueError`,
caught and re-raised as `IPPatternMismatchError`), then parses the
payload. -/
def parseEntry (entry : List Char) : Except PErr Bundle :=
  match pySplit '-' entry with
  | [_, ipString] => parsePayload entry ipString
  | _ => .error .patternMismatch

/-- The member-identifier wire format `<uuid>-<public>|<private>|<overlay>|<realm>`. -/
def mkEntry (uuid pub priv ovl realm : List Char) : List Char :=
  uuid ++ '-' :: (pub ++ '|' :: (priv ++ '|' :: (ovl ++ '|' :: realm)))

/-! ## `InstanceIPBundle.NAT_ips` / `filter_ip` -/

/-- Python's numeric comparison of a `bool` against an `int`
(`True == 1`, `False == 0`). -/
def boolInt (b : Bool) : Int := if b then 1 else 0

/-- `filter_ip(is_vpc)`: the peer's private address when
`is_vpc == int(self.is_vpc)`, else its public address; `int()` on a
non-numeric realm field raises `ValueError`. -/
def filterIpOf (isVpc : Bool) (b : Bundle) : Except PErr (List Char) :=
  match pyIntOfString b.isVpcField with
  | none => .error .valueError
  | some n => if boolInt isVpc = n then .ok b.privateIp else .ok b.publicIp

/-- `NAT_ips(is_vpc)`: `{"overlay_ip": overlay, "dest_ip": private if
is_vpc == int(self.is_vpc) else public}`, returned as
`(overlay, dest)`. -/
def natIpsOf (isVpc : Bool) (b : Bundle) : Except PErr (List Char × List Char) :=
  match pyIntOfString b.isVpcField with
  | none => .error .valueError
  | some n =>
    .ok (b.overlayIp, if boolInt isVpc = n then b.privateIp else b.publicIp)

/-! ## `IPtables._check_compatibility` — Python 2 mixed-type comparison

The compatibility check is
`tuple(version.split(".")) < (1, 2, 10)`: a tuple of *strings* compared
against a tuple of *ints*.  CPython 2's default comparison orders values
of different types by type name, with numbers before everything else, so
every `str` is strictly greater than every `int`. -/

/-- A Python 2 value appearing in the version comparison. -/
inductive Py2Val where
  | pInt (n : Int)
  | pStr (s : List Char)
deriving DecidableEq, Repr

/-- Lexicographic `<` on character lists (Python `str` ordering). -/
def listCharLt : List Char → List Char → Bool
  | [], [] => false
  | [], _ :: _ => true
  | _ :: _, [] => false
  | a :: as', b :: bs' => if a = b then listCharLt as' bs' else decide (a < b)

/-- CPython 2 `<` on values of possibly different types: numeric types
sort before `str` (numbers get the empty type name in
`default_3way_compare`), so `int < str` always. -/
def py2ValLt : Py2Val → Py2Val → Bool
  | .pInt a, .pInt b => a < b
  | .pStr a, .pStr b => listCharLt a b
  | .pInt _, .pStr _ => true
  | .pStr _, .pInt _ => false

/-- CPython 2 `==` across these types: an `int` never equals a `str`. -/
def py2ValEq : Py2Val → Py2Val → Bool
  | .pInt a, .pInt b => a = b
  | .pStr a, .pStr b => a = b
  | _, _ => false

/-- CPython 2 tuple `<`: elementwise, first non-equal pair decides, a
proper prefix is smaller. -/
def py2TupleLt : List Py2Val → List Py2Val → Bool
  | [], [] => false
  | [], _ :: _ => true
  | _ :: _, [] => false
  | a :: as', b :: bs' => if py2ValEq a b then py2TupleLt as' bs' else py2ValLt a b

/-- `tuple(version.split(".")) < (1, 2, 10)` — `true` means
`InvalidIPtablesVersionError` is raised. -/
def checkCompatibility (version : List Char) : Bool :=
  py2TupleLt ((pySplit '.' version).map Py2Val.pStr) [.pInt 1, .pInt 2, .pInt 10]

/-- `non_decimal.sub('', iptables_version_string.split()[1])`: second
whitespace token of the `iptables -V` output with all characters other
than digits and dots removed; `none` models the `IndexError` when the
output has fewer than two tokens. -/
def extractVersion (out : List Char) : Option (List Char) :=
  match pySplitWs out with
  | _ :: tok :: _ => some (tok.filter (fun c => c.isDigit || c = '.'))
  | _ => none

/-- The full `_check_compatibility` pipeline from the `iptables -V`
output: `some true` = version rejected, `some false` = accepted,
`none` = `IndexError` on a malformed output line. -/
def checkCompatFromOutput (out : List Char) : Option Bool :=
  (extractVersion out).map checkCompatibility

/-! ## `IPtables._push_live` -/

/-- Observable effects of one `_push_live` call, as functions of whether
the two `iptables-restore` invocations would succeed. -/
structure PushResult where
  syntaxCheckRun : Bool
  syntaxErrorLogged : Bool
  printedAndExited : Bool
  applyRun : Bool
  applyErrorLogged : Bool
deriving DecidableEq, Repr

/-- `_push_live(temp)`: run `iptables-restore -t`; on failure only *log*
(exception swallowed, control continues); if `dry_run`, print the file and
exit the process; otherwise run `iptables-restore -v` (apply), logging a
failure. -/
def pushLive (dryRun syntaxOk applyOk : Bool) : PushResult :=
  let logged := !syntaxOk
  if dryRun then ⟨true, logged, true, false, false⟩
  else ⟨true, logged, false, true, !applyOk⟩

/-! ## Rule objects and `IPtables._gen_rule_file` / `build` -/

/-- Abnormal terminations of rule-file generation and `build`. -/
inductive RuleErr where
  | invalidIP
  | invalidChain
  | pyValueError
deriving DecidableEq, Repr

/-- `FilterRule.CHAINS`. -/
def FILTER_CHAINS : List (List Char) :=
  [str "OUTPUT", str "INPUT", str "PREROUTING", str "POSTROUTING",
   str "ssh_whitelist", str "ec2_whitelist"]

/-- `NATRule.CHAINS`. -/
def NAT_CHAINS : List (List Char) :=
  [str "OUTPUT", str "INPUT", str "PREROUTING", str "POSTROUTING"]

/-- `FilterRule(chain, source_ip, dest_port)`: validate the source with
`IPv4Network` (`AddressValueError` → `InvalidIPError`, other
`ValueError`s propagate) and the chain, then produce
`-A <chain> -s <ip> <dport> -j ACCEPT\n` (note the double space when
there is no destination port, exactly as the `%` format yields). -/
def filterRuleStr (chain source : List Char) (destPort : Option Nat) :
    Except RuleErr (List Char) :=
  match ipv4NetworkOutcome source with
  | .addrErr => .error .invalidIP
  | .valErr => .error .pyValueError
  | .ok =>
    if !FILTER_CHAINS.contains chain then .error .invalidChain
    else
      let dport := match destPort with
        | some d => str "-p tcp --dport " ++ str (toString d)
        | none => []
      .ok (str "-A " ++ chain ++ str " -s " ++ source ++ str " " ++ dport
            ++ str " -j ACCEPT" ++ ['\n'])

/-- `NATRule(chain, source_ip, dest_ip)`: both addresses validated with
`IPv4Network`, chain checked, producing
`-A <chain> -d <src> -j DNAT --to-destination <dst>\n`. -/
def natRuleStr (chain source dest : List Char) : Except RuleErr (List Char) :=
  match ipv4NetworkOutcome source with
  | .addrErr => .error .invalidIP
  | .valErr => .error .pyValueError
  | .ok =>
    match ipv4NetworkOutcome dest with
    | .addrErr => .error .invalidIP
    | .valErr => .error .pyValueError
    | .ok =>
      if !NAT_CHAINS.contains chain then .error .invalidChain
      else
        .ok (str "-A " ++ chain ++ str " -d " ++ source
              ++ str " -j DNAT --to-destination " ++ dest ++ ['\n'])

/-- `IPTABLES_BASE` (triple-quoted, so it begins with a newline). -/
def IPTABLES_BASE : List Char :=
  str "\n*filter\n-N ec2_whitelist\n-N ssh_whitelist\n-A INPUT -i lo -j ACCEPT\n-A INPUT -m state --state ESTABLISHED,RELATED -j ACCEPT\n-A INPUT -j ec2_whitelist\n-A INPUT -j ssh_whitelist\n"

/-- Configuration values the synthesizer reads (`neti.ssh_whitelist`
already split on commas, `neti.open_80`, `neti.reject_all`). -/
structure NetiConfig where
  sshWhitelist : List (List Char)
  open80 : Bool
  rejectAll : Bool

/-- The `ec2_whitelist` loop: one accept rule per bundle sourced at
`bundle.filter_ip(self._is_vpc)`. -/
def ec2Rules (isVpc : Bool) : List Bundle → Except RuleErr (List Char)
  | [] => .ok []
  | b :: bs =>
    match filterIpOf isVpc b with
    | .error _ => .error .pyValueError
    | .ok fi =>
      match filterRuleStr (str "ec2_whitelist") fi none with
      | .error e => .error e
      | .ok r =>
        match ec2Rules isVpc bs with
        | .error e => .error e
        | .ok rest => .ok (r ++ rest)

/-- The `ssh_whitelist` loop: one port-22 accept rule per configured
address. -/
def sshRules : List (List Char) → Except RuleErr (List Char)
  | [] => .ok []
  | ip :: ips =>
    match filterRuleStr (str "ssh_whitelist") ip (some 22) with
    | .error e => .error e
    | .ok r =>
      match sshRules ips with
      | .error e => .error e
      | .ok rest => .ok (r ++ rest)

/-- The NAT loop: one `OUTPUT` DNAT rule per bundle, matching the peer's
overlay address and rewriting to `NAT_ips`'s `dest_ip`. -/
def natRules (isVpc : Bool) : List Bundle → Except RuleErr (List Char)
  | [] => .ok []
  | b :: bs =>
    match natIpsOf isVpc b with
    | .error _ => .error .pyValueError
    | .ok nat =>
      match natRuleStr (str "OUTPUT") nat.1 nat.2 with
      | .error e => .error e
      | .ok r =>
        match natRules isVpc bs with
        | .error e => .error e
        | .ok rest => .ok (r ++ rest)

/-- `_gen_rule_file(temp, bundles)`: the exact text written to the scratch
file, in write order — base filter table, the `open_80` and `reject_all`
lines (written without trailing newlines, exactly as the source does),
the per-peer `ec2_whitelist` rules, the configured `ssh_whitelist` rules,
the VPC-only `10.0.0.0/8` rule, `COMMIT`, the `*nat` table with one DNAT
rule per peer, `COMMIT`. -/
def genRuleFile (cfg : NetiConfig) (isVpc : Bool) (bundles : List Bundle) :
    Except RuleErr (List Char) :=
  let base := IPTABLES_BASE
    ++ (if cfg.open80 then
          str "-A INPUT -p tcp --dport 80 -m state --state NEW,ESTABLISHED -j ACCEPT"
          ++ str "-A OUTPUT -o eth0 -p tcp --sport 80 -m state --state ESTABLISHED -j ACCEPT"
        else [])
    ++ (if cfg.rejectAll then str "-A INPUT -p tcp -j DROP" else [])
  match ec2Rules isVpc bundles with
  | .error e => .error e
  | .ok ec2 =>
    match (if cfg.sshWhitelist.length > 0 then sshRules cfg.sshWhitelist else .ok []) with
    | .error e => .error e
    | .ok ssh =>
      match (if isVpc then filterRuleStr (str "ssh_whitelist") (str "10.0.0.0/8") none
             else .ok []) with
      | .error e => .error e
      | .ok vpcSsh =>
        match natRules isVpc bundles with
        | .error e => .error e
        | .ok nat =>
          .ok (base ++ ec2 ++ ssh ++ vpcSsh ++ str "COMMIT\n" ++ str "*nat\n"
                ++ nat ++ str "COMMIT\n")

/-- Abnormal terminations of `IPtables.build`. -/
inductive BuildErr where
  | badVersion
  | versionIndexError
  | parse (e : PErr)
  | rule (e : RuleErr)
deriving DecidableEq, Repr

/-- `IPtables._ips_from_entries(entries)`: builds the bundle list in
order; there is no `try`/`except` around `InstanceIPBundle(entry)`, so the
first parse failure propagates and aborts the whole list. -/
def ipsFromEntries : List (List Char) → Except PErr (List Bundle)
  | [] => .ok []
  | e :: es =>
    match parseEntry e with
    | .error err => .error err
    | .ok b =>
      match ipsFromEntries es with
      | .error err => .error err
      | .ok bs => .ok (b :: bs)

/-- `IPtables.build(entries)`: re-check compatibility, parse all entries,
and only when `len(bundles) > 0` generate the rule file and push it live.
`.ok none` means the snapshot produced *no* rule file and no
`_push_live` call; `.ok (some prog)` means `prog` was written and
submitted. `versionOut` is the `iptables -V` output. -/
def build (cfg : NetiConfig) (isVpc : Bool) (versionOut : List Char)
    (entries : List (List Char)) : Except BuildErr (Option (List Char)) :=
  match checkCompatFromOutput versionOut with
  | none => .error .versionIndexError
  | some true => .error .badVersion
  | some false =>
    match ipsFromEntries entries with
    | .error e => .error (.parse e)
    | .ok bundles =>
      if bundles.length > 0 then
        match genRuleFile cfg isVpc bundles with
        | .error e => .error (.rule e)
        | .ok prog => .ok (some prog)
      else .ok none

/-! ## `Registry` — the address-leasing protocol

ZooKeeper state relevant to registration: the durable forward-lease map
(children of `id_to_ip/`, node data = overlay address) and the durable
reverse map (children of `ip_to_id/`, node data = instance id).  `none`
for a map models the *parent* node being absent (`NoNodeError` on reads).
Node names and address data are modelled by their numeric address value;
instance ids by strings.  Interleaved writes by other agents are modelled
by an interference function applied to the store before each primitive
ZooKeeper operation of `_find_available_overlay_ip`; the k-th primitive
sees `intf k store`.  `seqZK` is the no-concurrent-writer case. -/

/-- The coordination-store state seen by `Registry`. -/
structure ZKStore where
  idToIp : Option (List (String × Nat))
  ipToId : Option (List (Nat × String))
deriving DecidableEq, Repr

/-- No concurrent writer: every primitive sees the store unchanged. -/
def seqZK : Nat → ZKStore → ZKStore := fun _ s => s

/-- `MAX_IP_TRIES`. -/
def MAX_IP_TRIES : Nat := 5

/-- `zk.get(id_to_ip/<self>)`: `none` models `NoNodeError` (parent or
node absent). -/
def zkGetIdToIp (self : String) (s : ZKStore) : Option Nat :=
  s.idToIp.bind (List.lookup self)

/-- Replace the value at an existing key (`zk.set`). -/
def updateAssoc (m : List (Nat × String)) (k : Nat) (v : String) :
    List (Nat × String) :=
  m.map (fun p => if p.1 = k then (k, v) else p)

/-- Result of `zk.create(id_to_ip/<self>, ip)`. -/
inductive CreateResult where
  | ok (s : ZKStore)
  | noNode
  | nodeExists
deriving DecidableEq, Repr

/-- `zk.create(id_to_ip/<self>, ip)`: `NoNodeError` when the parent path
is absent, `NodeExistsError` when the node already exists. -/
def zkCreateIdToIp (self : String) (ip : Nat) (s : ZKStore) : CreateResult :=
  match s.idToIp with
  | none => .noNode
  | some m =>
    if (List.lookup self m).isSome then .nodeExists
    else .ok { s with idToIp := some ((self, ip) :: m) }

/-- `zk.ensure_path(zk_idtoip_path)`. -/
def zkEnsureIdToIpParent (s : ZKStore) : ZKStore :=
  { s with idToIp := some (s.idToIp.getD []) }

/-- The reverse-map children visible to `_choose_overlay_ip` (empty set
when the parent is absent, per the `except NoNodeError`). -/
def usedOf (s : ZKStore) : List Nat :=
  match s.ipToId with
  | none => []
  | some m => m.map Prod.fst

/-- `ip_to_id/<ip>` data. -/
def reverseLookup (s : ZKStore) (ip : Nat) : Option String :=
  s.ipToId.bind (List.lookup ip)

/-- The overlay subnet: base address and prefix length. -/
structure OverlayNet where
  base : Nat
  plen : Nat
deriving DecidableEq, Repr

/-- `IPv4Network.hosts()`: every address strictly between the network and
broadcast addresses, in order. -/
def hostsOf (net : OverlayNet) : List Nat :=
  (List.range (2 ^ (32 - net.plen) - 2)).map (fun i => net.base + 1 + i)

/-- Registration failures: `NoAvailableIPsError`. -/
inductive RegErr where
  | noAvailableIPs
deriving DecidableEq, Repr

/-- `_choose_overlay_ip`: the used set is the reverse map's children (or
empty if the parent is missing); the available set is the subnet's hosts
minus the used set; empty means `NoAvailableIPsError`, otherwise
`random.sample` picks a member — abstracted by `pick`, which theorems
constrain to return a member of a nonempty list. -/
def chooseOverlayIp (pick : List Nat → Nat) (net : OverlayNet) (s : ZKStore) :
    Except RegErr Nat :=
  let avail := (hostsOf net).filter (fun h => !((usedOf s).contains h))
  if avail.isEmpty then .error .noAvailableIPs else .ok (pick avail)

/-- Outcome of one iteration of the `while retries < MAX_IP_TRIES` loop. -/
inductive AttemptResult where
  | done (ip : Nat) (s : ZKStore) (k : Nat)
  | retry (s : ZKStore) (k : Nat)
deriving DecidableEq, Repr

/-- One iteration of `_find_available_overlay_ip`'s loop, for candidate
`ip`, with `k` the index of the next primitive operation: try to create
the forward lease (on `NoNodeError` ensure the parent and retry; on
`NodeExistsError` read the lease — a hit is *returned*, a `NoNodeError`
retries), then re-read the lease to confirm; a missing node retries, and
the value read is returned whether or not it equals the candidate (the
code's `else` branch logs "already assigned ... using that" and returns
the stored value). -/
def attemptOnce (intf : Nat → ZKStore → ZKStore) (self : String) (ip : Nat)
    (s : ZKStore) (k : Nat) : AttemptResult :=
  let s0 := intf k s
  match zkCreateIdToIp self ip s0 with
  | .noNode => .retry (zkEnsureIdToIpParent s0) (k + 1)
  | .nodeExists =>
    let s1 := intf (k + 1) s0
    match zkGetIdToIp self s1 with
    | none => .retry s1 (k + 2)
    | some z => .done z s1 (k + 2)
  | .ok s' =>
    let s1 := intf (k + 1) s'
    match zkGetIdToIp self s1 with
    | none => .retry s1 (k + 2)
    | some z => .done z s1 (k + 2)

/-- Result of `_find_available_overlay_ip` / `register`: the outcome, the
final store, and how many candidate claim attempts (loop iterations) were
made. -/
structure FindResult where
  res : Except RegErr Nat
  store : ZKStore
  attempts : Nat
deriving DecidableEq, Repr

/-- The `while retries < MAX_IP_TRIES` loop (fuel = remaining retries). -/
def findLoop (intf : Nat → ZKStore → ZKStore) (self : String) (ip : Nat) :
    Nat → ZKStore → Nat → Nat → FindResult
  | 0, s, _, used => ⟨.error .noAvailableIPs, s, used⟩
  | fuel + 1, s, k, used =>
    match attemptOnce intf self ip s k with
    | .done z s' _ => ⟨.ok z, s', used + 1⟩
    | .retry s' k' => findLoop intf self ip fuel s' k' (used + 1)

/-- `_find_available_overlay_ip`: choose one candidate (a single
`_choose_overlay_ip` call, *before* the loop — retries reuse the same
candidate), then run the claim loop at most `MAX_IP_TRIES` times. -/
def findAvailableOverlayIp (pick : List Nat → Nat) (intf : Nat → ZKStore → ZKStore)
    (self : String) (net : OverlayNet) (s : ZKStore) : FindResult :=
  let s0 := intf 0 s
  match chooseOverlayIp pick net s0 with
  | .error e => ⟨.error e, s0, 0⟩
  | .ok ip => findLoop intf self ip MAX_IP_TRIES s0 1 0

/-- `_set_ip_to_id_map(ip)`: `zk.set` the reverse node; on `NoNodeError`
create it; if even the create hits `NoNodeError` (parent absent), ensure
the full node path and recurse (the recursion is depth at most two
sequentially and is unrolled here). -/
def setIpToIdMap (self : String) (ip : Nat) (s : ZKStore) : ZKStore :=
  match s.ipToId with
  | none => { s with ipToId := some [(ip, self)] }
  | some m =>
    if (List.lookup ip m).isSome then { s with ipToId := some (updateAssoc m ip self) }
    else { s with ipToId := some ((ip, self) :: m) }

/-- `Registry.register()`: read the own forward lease; a hit short-circuits
allocation entirely (the stored value is adopted unvalidated); a
`NoNodeError` allocates via `_find_available_overlay_ip` (and then tags
the cloud instance — an external best-effort call with no store effect);
either way the reverse map is unconditionally refreshed and the overlay
address returned. -/
def register (pick : List Nat → Nat) (intf : Nat → ZKStore → ZKStore)
    (self : String) (net : OverlayNet) (s : ZKStore) : FindResult :=
  match zkGetIdToIp self s with
  | some o => ⟨.ok o, setIpToIdMap self o s, 0⟩
  | none =>
    let fr := findAvailableOverlayIp pick intf self net s
    match fr.res with
    | .error e => ⟨.error e, fr.store, fr.attempts⟩
    | .ok ip => ⟨.ok ip, setIpToIdMap self ip fr.store, fr.attempts⟩

/-! ## Helper lemmas on the string primitives -/

theorem pySplit_ne_nil (sep : Char) : ∀ s : List Char, pySplit sep s ≠ [] := by
  intro s
  induction s with
  | nil => simp [pySplit]
  | cons c cs ih =>
    by_cases h : c = sep
    · simp [pySplit, h]
    · simp only [pySplit, if_neg h]
      cases hp : pySplit sep cs with
      | nil => exact absurd hp ih
      | cons w ws => simp

theorem pySplit_not_mem (sep : Char) {s : List Char} (h : sep ∉ s) :
    pySplit sep s = [s] := by
  induction s with
  | nil => rfl
  | cons c cs ih =>
    have hc : ¬ c = sep := fun hh => h (hh ▸ List.mem_cons_self c cs)
    have hcs : sep ∉ cs := fun hh => h (List.mem_cons_of_mem c hh)
    simp only [pySplit, if_neg hc, ih hcs]

theorem pySplit_append (sep : Char) {xs : List Char} (ys : List Char)
    (h : sep ∉ xs) :
    pySplit sep (xs ++ sep :: ys) = xs :: pySplit sep ys := by
  induction xs with
  | nil => simp [pySplit]
  | cons c cs ih =>
    have hc : ¬ c = sep := fun hh => h (hh ▸ List.mem_cons_self c cs)
    have hcs : sep ∉ cs := fun hh => h (List.mem_cons_of_mem c hh)
    simp only [List.cons_append, pySplit, if_neg hc]
    rw [show cs.append (sep :: ys) = cs ++ sep :: ys from rfl, ih hcs]

/-- Every character of a string is the separator or lies in one of the
split segments. -/
theorem pySplit_chars (sep : Char) {s : List Char} {c : Char} (hc : c ∈ s) :
    c = sep ∨ ∃ p ∈ pySplit sep s, c ∈ p := by
  induction s with
  | nil => cases hc
  | cons d ds ih =>
    rcases List.mem_cons.mp hc with rfl | hmem
    · by_cases hd : c = sep
      · exact Or.inl hd
      · refine Or.inr ?_
        cases hp : pySplit sep ds with
        | nil => exact absurd hp (pySplit_ne_nil sep ds)
        | cons w ws =>
          exact ⟨c :: w, by simp [pySplit, if_neg hd, hp], List.mem_cons_self c w⟩
    · rcases ih hmem with hsep | ⟨p, hp, hcp⟩
      · exact Or.inl hsep
      · refine Or.inr ?_
        by_cases hd : d = sep
        · exact ⟨p, by simp [pySplit, if_pos hd, hp], hcp⟩
        · cases hq : pySplit sep ds with
          | nil => exact absurd hq (pySplit_ne_nil sep ds)
          | cons w ws =>
            rcases List.mem_cons.mp (hq ▸ hp) with rfl | hw
            · exact ⟨d :: p, by simp [pySplit, if_neg hd, hq], List.mem_cons_of_mem d hcp⟩
            · exact ⟨p, by simp [pySplit, if_neg hd, hq, hw], hcp⟩

/-- Characters of a well-formed dotted-quad string are digits or dots. -/
theorem isIPv4_chars {s : List Char} (h : isIPv4String s = true) :
    ∀ c ∈ s, c.isDigit = true ∨ c = '.' := by
  intro c hc
  rcases pySplit_chars '.' hc with rfl | ⟨p, hp, hcp⟩
  · exact Or.inr rfl
  · unfold isIPv4String at h
    have hall := (Bool.and_eq_true _ _ |>.mp h).2
    have hv : validOctet p = true := by
      have := List.all_eq_true.mp hall p hp
      exact this
    unfold validOctet at hv
    have hd : p.all Char.isDigit = true := by
      have h1 := (Bool.and_eq_true _ _ |>.mp hv).1
      have h2 := (Bool.and_eq_true _ _ |>.mp h1).1
      have h3 := (Bool.and_eq_true _ _ |>.mp h2).1
      exact (Bool.and_eq_true _ _ |>.mp h3).2
    exact Or.inl (List.all_eq_true.mp hd c hcp)

/-- A valid dotted-quad address contains no separator characters used by
the member-identifier grammar. -/
theorem isIPv4_no_sep {s : List Char} (h : isIPv4String s = true) :
    '-' ∉ s ∧ '|' ∉ s ∧ '/' ∉ s := by
  refine ⟨fun hm => ?_, fun hm => ?_, fun hm => ?_⟩ <;>
    rcases isIPv4_chars h _ hm with hd | hd <;> simp_all

/-- A slash-free well-formed address is accepted by `IPv4Network`. -/
theorem ipv4Outcome_of_isIPv4 {s : List Char} (h : isIPv4String s = true) :
    ipv4NetworkOutcome s = .ok := by
  have hns : '/' ∉ s := (isIPv4_no_sep h).2.2
  unfold ipv4NetworkOutcome
  rw [pySplit_not_mem '/' hns]
  simp [h]

/-- The Python 2 version comparison is vacuous: a tuple of strings never
compares below a tuple of ints, whatever the version string. -/
theorem checkCompatibility_eq_false (v : List Char) :
    checkCompatibility v = false := by
  unfold checkCompatibility
  cases hp : pySplit '.' v with
  | nil => exact absurd hp (pySplit_ne_nil '.' v)
  | cons w ws => simp [py2TupleLt, py2ValEq, py2ValLt]

/-! ## Claim theorems -/

/-- Claim C2 (code_bug): the spec and `_push_live`'s own docstring say a
failed syntax check abandons the installation without invoking the loader
in apply mode, but the code only logs the failure and falls through: with
`dry_run` off and a failing `iptables-restore -t`, the apply invocation
`iptables-restore -v` still runs. -/
theorem c2_failed_syntax_check_still_applies :
    (pushLive false false true).syntaxErrorLogged = true ∧
    (pushLive false false true).applyRun = true ∧
    (pushLive false false false).applyRun = true := by
  decide

/-- Claim C3 (code_bug): construction never raises
`InvalidIPtablesVersionError`, for any reported version.  In Python 2,
`tuple(version.split("."))` is a tuple of strings and compares strictly
greater than the int tuple `(1, 2, 10)` whatever the fragments are, so
the `<` test is always false — e.g. a loader reporting version `0.0.0`
is accepted, contradicting the claimed (and logged) `>= 1.2.10`
precondition. -/
theorem c3_version_check_never_fires :
    (∀ v : List Char, checkCompatibility v = false) ∧
    checkCompatFromOutput (str "iptables v0.0.0") = some false ∧
    checkCompatFromOutput (str "iptables v1.2.9") = some false :=
  ⟨checkCompatibility_eq_false, by decide, by decide⟩

/-- Claim C7 (confirmed): for a parsed peer tuple whose realm field is the
digit `0` or `1`, `filter_ip(selfRealm)` is the peer's private address
exactly when the peer's realm equals the self realm and the public
address otherwise; `NAT_ips` pairs the peer's overlay address with that
same reachable destination, and the generated NAT rule DNATs traffic
destined to the overlay address to it. -/
theorem c7_filter_and_nat_addresses (isVpc : Bool) (b : Bundle)
    (hr : b.isVpcField = ['0'] ∨ b.isVpcField = ['1'])
    (hov : ipv4NetworkOutcome b.overlayIp = .ok)
    (hpriv : ipv4NetworkOutcome b.privateIp = .ok)
    (hpub : ipv4NetworkOutcome b.publicIp = .ok) :
    filterIpOf isVpc b =
      .ok (if isVpc = true ↔ b.isVpcField = ['1'] then b.privateIp else b.publicIp) ∧
    natIpsOf isVpc b =
      .ok (b.overlayIp,
        if isVpc = true ↔ b.isVpcField = ['1'] then b.privateIp else b.publicIp) ∧
    natRules isVpc [b] =
      .ok (str "-A OUTPUT -d " ++ b.overlayIp ++ str " -j DNAT --to-destination "
        ++ (if isVpc = true ↔ b.isVpcField = ['1'] then b.privateIp else b.publicIp)
        ++ ['\n']) := by
  rcases hr with hr | hr <;> cases isVpc <;>
    simp [filterIpOf, natIpsOf, natRules, natRuleStr, hr, hov, hpriv, hpub,
      pyIntOfString, natOfDigits, boolInt, NAT_CHAINS, str]

/-- Concrete instance of C7 (spec scenario 5): a VPC host and a same-realm
peer `9.9.9.9|10.0.0.6|10.99.0.8|1` — the filter source and NAT
destination are the private address `10.0.0.6`. -/
theorem c7_filter_and_nat_addresses_witness :
    filterIpOf true ⟨str "9.9.9.9", str "10.0.0.6", str "10.99.0.8", ['1'], []⟩ =
      .ok (if true = true ↔ (['1'] : List Char) = ['1'] then str "10.0.0.6" else str "9.9.9.9") ∧
    natIpsOf true ⟨str "9.9.9.9", str "10.0.0.6", str "10.99.0.8", ['1'], []⟩ =
      .ok (str "10.99.0.8",
        if true = true ↔ (['1'] : List Char) = ['1'] then str "10.0.0.6" else str "9.9.9.9") ∧
    natRules true [⟨str "9.9.9.9", str "10.0.0.6", str "10.99.0.8", ['1'], []⟩] =
      .ok (str "-A OUTPUT -d " ++ str "10.99.0.8" ++ str " -j DNAT --to-destination "
        ++ (if true = true ↔ (['1'] : List Char) = ['1'] then str "10.0.0.6" else str "9.9.9.9")
        ++ ['\n']) :=
  c7_filter_and_nat_addresses true ⟨str "9.9.9.9", str "10.0.0.6", str "10.99.0.8", ['1'], []⟩
    (Or.inr rfl) (by decide) (by decide) (by decide)

/-! ## Registry lemmas -/

theorem setIpToIdMap_idToIp (self : String) (ip : Nat) (s : ZKStore) :
    (setIpToIdMap self ip s).idToIp = s.idToIp := by
  unfold setIpToIdMap
  cases h : s.ipToId with
  | none => rfl
  | some m =>
    by_cases hm : (List.lookup ip m).isSome <;> simp [hm]

theorem updateAssoc_cons (k : Nat) (w : String) (ps : List (Nat × String))
    (ip : Nat) (v : String) :
    updateAssoc ((k, w) :: ps) ip v =
      (if k = ip then (ip, v) else (k, w)) :: updateAssoc ps ip v := rfl

theorem lookup_updateAssoc (m : List (Nat × String)) (ip : Nat) (v : String)
    (h : (List.lookup ip m).isSome = true) :
    List.lookup ip (updateAssoc m ip v) = some v := by
  induction m with
  | nil => simp [List.lookup] at h
  | cons p ps ih =>
    obtain ⟨k, w⟩ := p
    rw [updateAssoc_cons]
    by_cases hp : k = ip
    · rw [if_pos hp]
      simp [List.lookup]
    · rw [if_neg hp]
      have hb : (ip == k) = false := by
        simp only [beq_eq_false_iff_ne, ne_eq]
        exact fun hh => hp hh.symm
      have hl : List.lookup ip ((k, w) :: ps) = List.lookup ip ps := by
        simp [List.lookup, hb]
      have hg : List.lookup ip ((k, w) :: updateAssoc ps ip v) =
          List.lookup ip (updateAssoc ps ip v) := by
        simp [List.lookup, hb]
      rw [hl] at h
      rw [hg]
      exact ih h

/-- After `_set_ip_to_id_map(ip)` the reverse node holds this instance. -/
theorem reverseLookup_setIpToIdMap (self : String) (ip : Nat) (s : ZKStore) :
    reverseLookup (setIpToIdMap self ip s) ip = some self := by
  unfold reverseLookup setIpToIdMap
  cases h : s.ipToId with
  | none => simp [List.lookup]
  | some m =>
    by_cases hm : (List.lookup ip m).isSome
    · simp only [if_pos hm, Option.bind_some]
      exact lookup_updateAssoc m ip self hm
    · simp [hm, List.lookup]

/-- Claim C5 (confirmed): when the forward lease `id_to_ip/<self>` already
holds `O`, registration returns `O` without drawing from the random pool
(the result is identical for any choice function and any interference),
makes no candidate attempts, rewrites `ip_to_id/<O>` to `<self>`, and a
second registration run on the resulting store again returns `O` and
again rewrites the reverse map. -/
theorem c5_register_idempotent (pick pick2 : List Nat → Nat)
    (intf intf2 : Nat → ZKStore → ZKStore) (self : String) (net : OverlayNet)
    (s : ZKStore) (m : List (String × Nat)) (O : Nat)
    (hm : s.idToIp = some m) (hO : List.lookup self m = some O) :
    (register pick intf self net s).res = .ok O ∧
    register pick intf self net s = register pick2 intf2 self net s ∧
    (register pick intf self net s).attempts = 0 ∧
    reverseLookup (register pick intf self net s).store O = some self ∧
    (register pick2 intf2 self net (register pick intf self net s).store).res = .ok O ∧
    reverseLookup
      (register pick2 intf2 self net (register pick intf self net s).store).store O
      = some self := by
  have hget : zkGetIdToIp self s = some O := by
    simp [zkGetIdToIp, hm, hO]
  have hreg : register pick intf self net s = ⟨.ok O, setIpToIdMap self O s, 0⟩ := by
    simp [register, hget]
  have hreg2 : register pick2 intf2 self net s = ⟨.ok O, setIpToIdMap self O s, 0⟩ := by
    simp [register, hget]
  have hget2 : zkGetIdToIp self (setIpToIdMap self O s) = some O := by
    simp [zkGetIdToIp, setIpToIdMap_idToIp, hm, hO]
  have hregB : register pick2 intf2 self net (setIpToIdMap self O s) =
      ⟨.ok O, setIpToIdMap self O (setIpToIdMap self O s), 0⟩ := by
    simp [register, hget2]
  refine ⟨by rw [hreg], by rw [hreg, hreg2], by rw [hreg], ?_, ?_, ?_⟩
  · rw [hreg]
    exact reverseLookup_setIpToIdMap self O s
  · rw [hreg, hregB]
  · rw [hreg, hregB]
    exact reverseLookup_setIpToIdMap self O (setIpToIdMap self O s)

/-- Concrete instance of C5 (spec scenario 2): a pre-existing lease
`id_to_ip/i-abc = 7` is returned unchanged by two successive runs with
different choice functions, and `ip_to_id/7` is rewritten to `i-abc`. -/
theorem c5_register_idempotent_witness :
    (register (fun l => l.headD 0) seqZK "i-abc" ⟨0, 30⟩
        ⟨some [("i-abc", 7)], some [(3, "other")]⟩).res = .ok 7 ∧
    register (fun l => l.headD 0) seqZK "i-abc" ⟨0, 30⟩
        ⟨some [("i-abc", 7)], some [(3, "other")]⟩ =
      register (fun l => l.getLastD 0) seqZK "i-abc" ⟨0, 30⟩
        ⟨some [("i-abc", 7)], some [(3, "other")]⟩ ∧
    (register (fun l => l.headD 0) seqZK "i-abc" ⟨0, 30⟩
        ⟨some [("i-abc", 7)], some [(3, "other")]⟩).attempts = 0 ∧
    reverseLookup (register (fun l => l.headD 0) seqZK "i-abc" ⟨0, 30⟩
        ⟨some [("i-abc", 7)], some [(3, "other")]⟩).store 7 = some "i-abc" ∧
    (register (fun l => l.getLastD 0) seqZK "i-abc" ⟨0, 30⟩
        (register (fun l => l.headD 0) seqZK "i-abc" ⟨0, 30⟩
          ⟨some [("i-abc", 7)], some [(3, "other")]⟩).store).res = .ok 7 ∧
    reverseLookup (register (fun l => l.getLastD 0) seqZK "i-abc" ⟨0, 30⟩
        (register (fun l => l.headD 0) seqZK "i-abc" ⟨0, 30⟩
          ⟨some [("i-abc", 7)], some [(3, "other")]⟩).store).store 7 = some "i-abc" :=
  c5_register_idempotent (fun l => l.headD 0) (fun l => l.getLastD 0) seqZK seqZK
    "i-abc" ⟨0, 30⟩ ⟨some [("i-abc", 7)], some [(3, "other")]⟩
    [("i-abc", 7)] 7 rfl rfl

/-- Claim C6 (confirmed): with no forward lease for this instance and the
reverse-map children covering every host address of the subnet,
`_choose_overlay_ip` finds the available set empty and registration fails
with `NoAvailableIPsError` after zero candidate attempts — within the
`MAX_IP_TRIES` (5) bound. -/
theorem c6_exhaustion_fails_fast (pick : List Nat → Nat) (self : String)
    (net : OverlayNet) (s : ZKStore)
    (hlease : zkGetIdToIp self s = none)
    (hcover : ∀ h ∈ hostsOf net, h ∈ usedOf s) :
    (register pick seqZK self net s).res = .error .noAvailableIPs ∧
    (register pick seqZK self net s).attempts = 0 ∧
    (register pick seqZK self net s).attempts ≤ MAX_IP_TRIES := by
  have havail : (hostsOf net).filter (fun h => !((usedOf s).contains h)) = [] := by
    rw [List.filter_eq_nil_iff]
    intro a ha
    have hmem : a ∈ usedOf s := hcover a ha
    simp [List.contains, List.elem_eq_mem, hmem]
  have hchoose : chooseOverlayIp pick net s = .error .noAvailableIPs := by
    simp only [chooseOverlayIp, havail]
    rfl
  have hfind : findAvailableOverlayIp pick seqZK self net s =
      ⟨.error .noAvailableIPs, s, 0⟩ := by
    simp only [findAvailableOverlayIp, seqZK, hchoose]
  have hreg : register pick seqZK self net s = ⟨.error .noAvailableIPs, s, 0⟩ := by
    simp only [register, hlease, hfind]
  exact ⟨by rw [hreg], by rw [hreg], by rw [hreg]; exact Nat.zero_le _⟩

/-- Concrete instance of C6 (spec scenario 3): subnet `/30` with both host
addresses taken by other instances — registration fails immediately. -/
theorem c6_exhaustion_fails_fast_witness :
    (register (fun l => l.headD 0) seqZK "i-new" ⟨0, 30⟩
        ⟨some [], some [(1, "i-a"), (2, "i-b")]⟩).res = .error .noAvailableIPs ∧
    (register (fun l => l.headD 0) seqZK "i-new" ⟨0, 30⟩
        ⟨some [], some [(1, "i-a"), (2, "i-b")]⟩).attempts = 0 ∧
    (register (fun l => l.headD 0) seqZK "i-new" ⟨0, 30⟩
        ⟨some [], some [(1, "i-a"), (2, "i-b")]⟩).attempts ≤ MAX_IP_TRIES :=
  c6_exhaustion_fails_fast (fun l => l.headD 0) "i-new" ⟨0, 30⟩
    ⟨some [], some [(1, "i-a"), (2, "i-b")]⟩ rfl (by decide)

/-- With no concurrent writer and no existing lease under an existing
parent, the first loop iteration creates the lease, the confirmation read
agrees, and the candidate is returned. -/
theorem findLoop_seq_fresh (self : String) (ip : Nat) (m : List (String × Nat))
    (s : ZKStore) (hs : s.idToIp = some m) (hl : List.lookup self m = none)
    (fuel k u : Nat) :
    findLoop seqZK self ip (fuel + 1) s k u =
      ⟨.ok ip, { s with idToIp := some ((self, ip) :: m) }, u + 1⟩ := by
  have hcr : zkCreateIdToIp self ip s =
      .ok { s with idToIp := some ((self, ip) :: m) } := by
    simp [zkCreateIdToIp, hs, hl]
  have hrd : zkGetIdToIp self { s with idToIp := some ((self, ip) :: m) } =
      some ip := by
    simp [zkGetIdToIp, List.lookup]
  simp only [findLoop, attemptOnce, seqZK, hcr, hrd]

/-- With no concurrent writer and the lease *parent* absent, the first
iteration hits `NoNodeError`, ensures the parent and retries; the second
iteration then claims the candidate. -/
theorem findLoop_seq_noparent (self : String) (ip : Nat) (s : ZKStore)
    (hs : s.idToIp = none) (fuel k u : Nat) :
    findLoop seqZK self ip (fuel + 2) s k u =
      ⟨.ok ip, { s with idToIp := some [(self, ip)] }, u + 2⟩ := by
  have hcr : zkCreateIdToIp self ip s = .noNode := by
    simp [zkCreateIdToIp, hs]
  have hens : zkEnsureIdToIpParent s = { s with idToIp := some [] } := by
    simp [zkEnsureIdToIpParent, hs]
  have hstep : findLoop seqZK self ip (fuel + 2) s k u =
      findLoop seqZK self ip (fuel + 1) { s with idToIp := some [] } (k + 1) (u + 1) := by
    simp only [findLoop, attemptOnce, seqZK, hcr, hens]
  rw [hstep, findLoop_seq_fresh self ip [] { s with idToIp := some [] } rfl rfl]

/-- Claim C9 amended: a *fresh* registration (no pre-existing forward
lease), absent concurrent store modification, only returns addresses
chosen by `_choose_overlay_ip`, which are host addresses of the realm's
subnet.  (The original claim fails for stores that already hold a lease:
see the counterexample — the stored value is returned unvalidated.) -/
theorem c9_fresh_allocation_within_subnet (pick : List Nat → Nat) (self : String)
    (net : OverlayNet) (s : ZKStore)
    (hlease : zkGetIdToIp self s = none)
    (hpick : ∀ l : List Nat, l ≠ [] → pick l ∈ l) :
    ∀ z, (register pick seqZK self net s).res = .ok z → z ∈ hostsOf net := by
  intro z hz
  rcases hav : (hostsOf net).filter (fun h => !((usedOf s).contains h)) with _ | ⟨a, rest⟩
  · have hchoose : chooseOverlayIp pick net s = .error .noAvailableIPs := by
      simp only [chooseOverlayIp, hav]
      rfl
    have hfind : findAvailableOverlayIp pick seqZK self net s =
        ⟨.error .noAvailableIPs, s, 0⟩ := by
      simp only [findAvailableOverlayIp, seqZK, hchoose]
    rw [show register pick seqZK self net s = ⟨.error .noAvailableIPs, s, 0⟩ by
      simp only [register, hlease, hfind]] at hz
    cases hz
  · set avail := (hostsOf net).filter (fun h => !((usedOf s).contains h)) with hava
    have hne : avail ≠ [] := by rw [hav]; simp
    have hipav : pick avail ∈ avail := hpick avail hne
    have hiphosts : pick avail ∈ hostsOf net := List.mem_of_mem_filter (hava ▸ hipav)
    have hchoose : chooseOverlayIp pick net s = .ok (pick avail) := by
      simp only [chooseOverlayIp, ← hava]
      rw [show avail.isEmpty = false by rw [hav]; rfl]
      rfl
    have hloop : ∃ st n, findLoop seqZK self (pick avail) MAX_IP_TRIES s 1 0 =
        ⟨.ok (pick avail), st, n⟩ := by
      cases hsid : s.idToIp with
      | none =>
        exact ⟨_, _, by
          rw [show (MAX_IP_TRIES : Nat) = 3 + 2 from rfl]
          rw [findLoop_seq_noparent self (pick avail) s hsid 3 1 0]⟩
      | some m =>
        have hlm : List.lookup self m = none := by
          have := hlease
          rw [zkGetIdToIp, hsid] at this
          simpa using this
        exact ⟨_, _, by
          rw [show (MAX_IP_TRIES : Nat) = 4 + 1 from rfl]
          rw [findLoop_seq_fresh self (pick avail) m s hsid hlm 4 1 0]⟩
    obtain ⟨st, n, hloopEq⟩ := hloop
    have hfind : findAvailableOverlayIp pick seqZK self net s =
        ⟨.ok (pick avail), st, n⟩ := by
      simp only [findAvailableOverlayIp, seqZK, hchoose, hloopEq]
    have hreg : register pick seqZK self net s =
        ⟨.ok (pick avail), setIpToIdMap self (pick avail) st, n⟩ := by
      simp only [register, hlease, hfind]
    rw [hreg] at hz
    have : pick avail = z := by
      simpa using hz
    rw [← this]
    exact hiphosts

/-- Counterexample to Claim C9 as stated: over subnet `0.0.0.0/30` (host
addresses 1 and 2), a store whose forward lease already maps this
instance to 77 makes registration return 77 — not a host address of the
subnet.  `register` adopts a pre-existing lease value with no
validation. -/
theorem c9_counterexample :
    (register (fun l => l.headD 0) seqZK "i-abc" ⟨0, 30⟩
        ⟨some [("i-abc", 77)], some []⟩).res = .ok 77 ∧
    77 ∉ hostsOf ⟨0, 30⟩ := by
  decide

/-- Concrete instance of the amended C9: a fresh registration against an
empty store over `0.0.0.0/30` returns 1, a host address of the subnet. -/
theorem c9_fresh_allocation_within_subnet_witness :
    (register (fun l => l.headD 0) seqZK "i-abc" ⟨0, 30⟩ ⟨some [], some []⟩).res
      = .ok 1 ∧ 1 ∈ hostsOf ⟨0, 30⟩ :=
  ⟨by decide,
    c9_fresh_allocation_within_subnet (fun l => l.headD 0) "i-abc" ⟨0, 30⟩
      ⟨some [], some []⟩ rfl
      (fun l hl => by
        cases l with
        | nil => exact absurd rfl hl
        | cons a as => exact List.mem_cons_self a as)
      1 (by decide)⟩

/-- The interference used to exhibit C8: a concurrent writer overwrites
the forward lease to 99 just before the confirmation read (the store
primitive with index 2). -/
def intfC8 : Nat → ZKStore → ZKStore :=
  fun k s => if k = 2 then { s with idToIp := some [("i-abc", 99)] } else s

/-- Counterexample to Claim C8 as stated: when the post-create
confirmation read returns 99 instead of the candidate 1,
`_find_available_overlay_ip` returns the stored value 99 after a single
candidate attempt — it does not discard it and loop back to re-enumerate
and choose a fresh candidate (99 is not even a host of the subnet). -/
theorem c8_counterexample :
    (findAvailableOverlayIp (fun l => l.headD 0) intfC8 "i-abc" ⟨0, 30⟩
        ⟨some [], some []⟩).res = .ok 99 ∧
    (findAvailableOverlayIp (fun l => l.headD 0) intfC8 "i-abc" ⟨0, 30⟩
        ⟨some [], some []⟩).attempts = 1 ∧
    99 ∉ hostsOf ⟨0, 30⟩ := by
  decide

/-- Claim C8 amended: in the claim-attempt iteration, when the create
succeeds but the confirmation read of `id_to_ip/<self>` returns a value
`z` different from the candidate, the iteration *adopts* `z` — it
terminates the loop returning the stored value (the code's
`else: return zk_ip` branch) rather than discarding it and looping back
to step 2. -/
theorem c8_confirmation_disagreement_adopts_stored (intf : Nat → ZKStore → ZKStore)
    (self : String) (ip : Nat) (s s' : ZKStore) (k : Nat) (z : Nat)
    (hcr : zkCreateIdToIp self ip (intf k s) = .ok s')
    (hrd : zkGetIdToIp self (intf (k + 1) s') = some z)
    (_hne : z ≠ ip) :
    attemptOnce intf self ip s k = .done z (intf (k + 1) s') (k + 2) := by
  simp only [attemptOnce, hcr, hrd]

/-- Concrete instance of the amended C8: with `intfC8` interfering, the
iteration adopts the stored 99 in place of the candidate 1. -/
theorem c8_confirmation_disagreement_adopts_stored_witness :
    attemptOnce intfC8 "i-abc" 1 ⟨some [], some []⟩ 1 =
      .done 99 (intfC8 2 ⟨some [("i-abc", 1)], some []⟩) 3 :=
  c8_confirmation_disagreement_adopts_stored intfC8 "i-abc" 1
    ⟨some [], some []⟩ ⟨some [("i-abc", 1)], some []⟩ 1 99
    (by decide) (by decide) (by decide)

/-- Counterexample to Claim C1 as stated (spec scenario 6): a snapshot
with one good identifier and one whose payload has only three `|`-fields.
The good entry alone parses fine, but `_ips_from_entries` raises instead
of dropping the bad member, and `build` aborts without installing
anything — the good member produces no rules. -/
theorem c1_counterexample :
    parseEntry (str "uuid1-1.2.3.4|10.0.0.5|10.99.0.7|0") =
      .ok ⟨str "1.2.3.4", str "10.0.0.5", str "10.99.0.7", ['0'],
        str "uuid1-1.2.3.4|10.0.0.5|10.99.0.7|0"⟩ ∧
    ipsFromEntries [str "uuid1-1.2.3.4|10.0.0.5|10.99.0.7|0",
        str "uuid2-1.1.1.1|2.2.2.2|0"] = .error .patternMismatch ∧
    build ⟨[], false, false⟩ true (str "iptables v1.4.21")
        [str "uuid1-1.2.3.4|10.0.0.5|10.99.0.7|0", str "uuid2-1.1.1.1|2.2.2.2|0"]
      = .error (.parse .patternMismatch) := by
  decide

/-- Claim C1 amended: a member identifier that fails to parse does not
merely drop that member — the exception propagates out of
`_ips_from_entries`, so the whole synthesis for the snapshot aborts and
no rule program is built or installed, whatever the other members are. -/
theorem c1_parse_error_aborts_synthesis (entries : List (List Char))
    (e : List Char) (hmem : e ∈ entries)
    (hbad : (parseEntry e).isOk = false) :
    (ipsFromEntries entries).isOk = false ∧
    ∀ (cfg : NetiConfig) (isVpc : Bool) (versionOut : List Char),
      (build cfg isVpc versionOut entries).isOk = false := by
  have h1 : ∀ es : List (List Char), e ∈ es → (ipsFromEntries es).isOk = false := by
    intro es
    induction es with
    | nil => intro h; cases h
    | cons a as ih =>
      intro hm
      rcases List.mem_cons.mp hm with rfl | hm'
      · unfold ipsFromEntries
        cases hpe : parseEntry e with
        | error err => simp [Except.isOk, Except.toBool]
        | ok b => rw [hpe] at hbad; simp [Except.isOk, Except.toBool] at hbad
      · unfold ipsFromEntries
        cases hpe : parseEntry a with
        | error err => simp [Except.isOk, Except.toBool]
        | ok b =>
          have hres := ih hm'
          cases hr : ipsFromEntries as with
          | error err => simp [Except.isOk, Except.toBool]
          | ok bs => rw [hr] at hres; simp [Except.isOk, Except.toBool] at hres
  refine ⟨h1 entries hmem, ?_⟩
  intro cfg isVpc versionOut
  unfold build
  cases hcc : checkCompatFromOutput versionOut with
  | none => simp [Except.isOk, Except.toBool]
  | some b =>
    cases b with
    | true => simp [Except.isOk, Except.toBool]
    | false =>
      cases hr : ipsFromEntries entries with
      | error err => simp [Except.isOk, Except.toBool]
      | ok bs =>
        have := h1 entries hmem
        rw [hr] at this
        simp [Except.isOk, Except.toBool] at this

/-- Concrete instance of the amended C1: with the malformed second entry
present, both the bundle list and every `build` over this snapshot
fail. -/
theorem c1_parse_error_aborts_synthesis_witness :
    (ipsFromEntries [str "uuid1-1.2.3.4|10.0.0.5|10.99.0.7|0",
        str "uuid2-1.1.1.1|2.2.2.2|0"]).isOk = false ∧
    ∀ (cfg : NetiConfig) (isVpc : Bool) (versionOut : List Char),
      (build cfg isVpc versionOut
        [str "uuid1-1.2.3.4|10.0.0.5|10.99.0.7|0",
         str "uuid2-1.1.1.1|2.2.2.2|0"]).isOk = false :=
  c1_parse_error_aborts_synthesis
    [str "uuid1-1.2.3.4|10.0.0.5|10.99.0.7|0", str "uuid2-1.1.1.1|2.2.2.2|0"]
    (str "uuid2-1.1.1.1|2.2.2.2|0") (by decide) (by decide)

/-- Counterexample to Claim C4 as stated: a payload with *five*
`|`-separated fields does not conform to the grammar (which requires
exactly four), yet parsing succeeds — `dict(zip(...))` silently drops
everything past the first three fields and only the first character of
the last field is checked.  Also, a payload with no `|` at all raises an
uncaught `IndexError`, not `IPPatternMismatch`. -/
theorem c4_counterexample :
    (pySplit '|' (str "1.2.3.4|5.6.7.8|9.9.9.9|4.3.2.1|0")).length = 5 ∧
    parseEntry (str "u-1.2.3.4|5.6.7.8|9.9.9.9|4.3.2.1|0") =
      .ok ⟨str "1.2.3.4", str "5.6.7.8", str "9.9.9.9", ['0'],
        str "u-1.2.3.4|5.6.7.8|9.9.9.9|4.3.2.1|0"⟩ ∧
    parseEntry (str "u-nopipes") = .error .indexError := by
  decide

/-- Claim C4 amended (the conforming direction holds): every string of
the form `<uuid>-<public>|<private>|<overlay>|<realm>` with a hyphen-free
uuid, three well-formed dotted-quad addresses and realm digit `0` or `1`
parses into exactly those four fields (with the entry retained), so the
fields re-encode to the same string.  Non-conforming strings are not all
rejected with `IPPatternMismatch` (see the counterexample). -/
theorem c4_conforming_entries_round_trip (uuid pub priv ovl realm : List Char)
    (hu : '-' ∉ uuid)
    (hpub : isIPv4String pub = true) (hpriv : isIPv4String priv = true)
    (hovl : isIPv4String ovl = true)
    (hr : realm = ['0'] ∨ realm = ['1']) :
    parseEntry (mkEntry uuid pub priv ovl realm) =
      .ok ⟨pub, priv, ovl, realm, mkEntry uuid pub priv ovl realm⟩ := by
  obtain ⟨hpubA, hpubB, _⟩ := isIPv4_no_sep hpub
  obtain ⟨hprivA, hprivB, _⟩ := isIPv4_no_sep hpriv
  obtain ⟨hovlA, hovlB, _⟩ := isIPv4_no_sep hovl
  have houtPub : ipv4NetworkOutcome pub = .ok := ipv4Outcome_of_isIPv4 hpub
  have houtPriv : ipv4NetworkOutcome priv = .ok := ipv4Outcome_of_isIPv4 hpriv
  have houtOvl : ipv4NetworkOutcome ovl = .ok := ipv4Outcome_of_isIPv4 hovl
  have hrmA : '-' ∉ realm := by rcases hr with rfl | rfl <;> decide
  have hrmB : '|' ∉ realm := by rcases hr with rfl | rfl <;> decide
  have hbc : binaryCheckMatch realm = true := by rcases hr with rfl | rfl <;> decide
  have hpaym : '-' ∉ pub ++ '|' :: (priv ++ '|' :: (ovl ++ '|' :: realm)) := by
    intro hm
    simp only [List.mem_append, List.mem_cons] at hm
    rcases hm with h | h | h | h | h | h | h
    · exact hpubA h
    · exact absurd h (by decide)
    · exact hprivA h
    · exact absurd h (by decide)
    · exact hovlA h
    · exact absurd h (by decide)
    · exact hrmA h
  have hsplit1 : pySplit '-' (mkEntry uuid pub priv ovl realm) =
      [uuid, pub ++ '|' :: (priv ++ '|' :: (ovl ++ '|' :: realm))] := by
    unfold mkEntry
    rw [pySplit_append '-' _ hu, pySplit_not_mem '-' hpaym]
  have hfields : pySplit '|' (pub ++ '|' :: (priv ++ '|' :: (ovl ++ '|' :: realm))) =
      [pub, priv, ovl, realm] := by
    rw [pySplit_append '|' _ hpubB, pySplit_append '|' _ hprivB,
        pySplit_append '|' _ hovlB, pySplit_not_mem '|' hrmB]
  simp only [parseEntry, hsplit1]
  simp only [parsePayload, hfields, List.length_cons, List.length_nil,
    List.getLastD_cons, List.getLastD_nil, hbc, IP_LABELS,
    List.zip, List.zipWith, validateFields,
    houtPub, houtPriv, houtOvl, List.getD, List.getElem?_cons_zero,
    List.getElem?_cons_succ]
  norm_num

/-- Concrete instance of the amended C4 (spec scenario 4's identifier):
`uuid1-1.2.3.4|10.0.0.5|10.99.0.7|0` parses into its four fields. -/
theorem c4_conforming_entries_round_trip_witness :
    parseEntry (mkEntry (str "uuid1") (str "1.2.3.4") (str "10.0.0.5")
        (str "10.99.0.7") ['0']) =
      .ok ⟨str "1.2.3.4", str "10.0.0.5", str "10.99.0.7", ['0'],
        mkEntry (str "uuid1") (str "1.2.3.4") (str "10.0.0.5")
          (str "10.99.0.7") ['0']⟩ :=
  c4_conforming_entries_round_trip (str "uuid1") (str "1.2.3.4")
    (str "10.0.0.5") (str "10.99.0.7") ['0']
    (by decide) (by decide) (by decide) (by decide) (Or.inl rfl)

/-- `_ips_from_entries` yields one bundle per entry when it succeeds. -/
theorem ipsFromEntries_length (es : List (List Char)) (bs : List Bundle)
    (h : ipsFromEntries es = .ok bs) : bs.length = es.length := by
  induction es generalizing bs with
  | nil =>
    unfold ipsFromEntries at h
    cases h
    rfl
  | cons a as ih =>
    unfold ipsFromEntries at h
    cases hpe : parseEntry a with
    | error err => rw [hpe] at h; cases h
    | ok b =>
      rw [hpe] at h
      cases hr : ipsFromEntries as with
      | error err => rw [hr] at h; cases h
      | ok bs' =>
        rw [hr] at h
        cases h
        simp [ih bs' hr]

theorem checkCompatFromOutput_some_false (out : List Char)
    (h : (extractVersion out).isSome = true) :
    checkCompatFromOutput out = some false := by
  cases hv : extractVersion out with
  | none => rw [hv] at h; cases h
  | some v => simp [checkCompatFromOutput, hv, checkCompatibility_eq_false]

/-- Counterexample to Claim C10 as stated: the empty snapshot produces no
rule program at all (`if num_entries > 0` guards generation), so nothing
is submitted for installation — the snapshot is skipped, and stale live
rules are left in place. -/
theorem c10_counterexample :
    build ⟨[str "1.2.3.4"], false, false⟩ true (str "iptables v1.4.21") [] =
      .ok none := by
  decide

/-- Claim C10 amended: for every *nonempty* snapshot whose entries all
parse and whose rule generation succeeds, `build` submits the complete
program — one text document containing the full filter table (starting
with the base template) followed by its `COMMIT`, the `*nat` table, and
the final `COMMIT`; the empty snapshot is skipped entirely. -/
theorem c10_nonempty_snapshot_full_program (cfg : NetiConfig) (isVpc : Bool)
    (versionOut : List Char) (entries : List (List Char)) (bundles : List Bundle)
    (prog : List Char)
    (hv : (extractVersion versionOut).isSome = true)
    (hne : entries ≠ [])
    (hparse : ipsFromEntries entries = .ok bundles)
    (hgen : genRuleFile cfg isVpc bundles = .ok prog) :
    build cfg isVpc versionOut entries = .ok (some prog) ∧
    ∃ mid natPart,
      prog = IPTABLES_BASE ++ mid ++ str "COMMIT\n" ++ str "*nat\n"
        ++ natPart ++ str "COMMIT\n" := by
  have hlen : bundles.length > 0 := by
    rw [ipsFromEntries_length entries bundles hparse]
    cases entries with
    | nil => exact absurd rfl hne
    | cons a as => simp
  constructor
  · rw [show build cfg isVpc versionOut entries =
        (if bundles.length > 0 then
          match genRuleFile cfg isVpc bundles with
          | .error e => .error (.rule e)
          | .ok prog => .ok (some prog)
        else .ok none) by
      simp only [build, checkCompatFromOutput_some_false versionOut hv, hparse]]
    rw [if_pos hlen, hgen]
  · unfold genRuleFile at hgen
    cases hec2 : ec2Rules isVpc bundles with
    | error e => rw [hec2] at hgen; cases hgen
    | ok ec2 =>
      rw [hec2] at hgen
      cases hssh : (if cfg.sshWhitelist.length > 0 then sshRules cfg.sshWhitelist
          else .ok []) with
      | error e => rw [hssh] at hgen; cases hgen
      | ok ssh =>
        rw [hssh] at hgen
        cases hvpc : (if isVpc then
            filterRuleStr (str "ssh_whitelist") (str "10.0.0.0/8") none
          else .ok []) with
        | error e => rw [hvpc] at hgen; cases hgen
        | ok vpcSsh =>
          rw [hvpc] at hgen
          cases hnat : natRules isVpc bundles with
          | error e => rw [hnat] at hgen; cases hgen
          | ok nat =>
            rw [hnat] at hgen
            cases hgen
            refine ⟨(if cfg.open80 then
                str "-A INPUT -p tcp --dport 80 -m state --state NEW,ESTABLISHED -j ACCEPT"
                ++ str "-A OUTPUT -o eth0 -p tcp --sport 80 -m state --state ESTABLISHED -j ACCEPT"
              else [])
              ++ (if cfg.rejectAll then str "-A INPUT -p tcp -j DROP" else [])
              ++ ec2 ++ ssh ++ vpcSsh, nat, ?_⟩
            simp [List.append_assoc]

/-- The complete program `build` produces for the one-peer LEGACY-host
snapshot used in the C10 witness. -/
def progC10 : List Char :=
  str "\n*filter\n-N ec2_whitelist\n-N ssh_whitelist\n-A INPUT -i lo -j ACCEPT\n-A INPUT -m state --state ESTABLISHED,RELATED -j ACCEPT\n-A INPUT -j ec2_whitelist\n-A INPUT -j ssh_whitelist\n-A ec2_whitelist -s 10.0.0.5  -j ACCEPT\nCOMMIT\n*nat\n-A OUTPUT -d 10.99.0.7 -j DNAT --to-destination 10.0.0.5\nCOMMIT\n"

set_option maxRecDepth 8192 in
/-- Concrete instance of the amended C10: a one-peer snapshot on a LEGACY
host yields the full two-table program and submits it. -/
theorem c10_nonempty_snapshot_full_program_witness :
    build ⟨[], false, false⟩ false (str "iptables v1.4.21")
        [str "uuid1-1.2.3.4|10.0.0.5|10.99.0.7|0"] = .ok (some progC10) ∧
    ∃ mid natPart,
      progC10 = IPTABLES_BASE ++ mid ++ str "COMMIT\n" ++ str "*nat\n"
        ++ natPart ++ str "COMMIT\n" :=
  c10_nonempty_snapshot_full_program ⟨[], false, false⟩ false
    (str "iptables v1.4.21") [str "uuid1-1.2.3.4|10.0.0.5|10.99.0.7|0"]
    [⟨str "1.2.3.4", str "10.0.0.5", str "10.99.0.7", ['0'],
      str "uuid1-1.2.3.4|10.0.0.5|10.99.0.7|0"⟩] progC10
    (by decide) (by decide) (by decide) (by decide)

end Neti
